import Mathlib

/-!
Shallow embedding of the PaintWiser Growth Worker core pipeline
(market-analysis aggregation, estimate interpolator, quota gate,
plan derivation) together with theorems settling the spec claims.

Numbers are modelled with `ℚ`; JavaScript `Math.round` is the
half-up rounding `⌊q + 1/2⌋`; fallible effects are `Except`/`Option`
values passed explicitly.
-/

namespace GrowthWorker

/-- JavaScript `Math.round`: rounds half toward positive infinity. -/
def jsRound (q : ℚ) : ℤ :=
  ⌊q + 1/2⌋

/-- The repeated `Math.round(x * 100) / 100` idiom (round to cents). -/
def roundCents (q : ℚ) : ℚ :=
  (jsRound (q * 100) : ℚ) / 100

/-- JavaScript `s.toLowerCase()` (ASCII-level model via `Char.toLower`). -/
def jsToLower (s : String) : String :=
  String.mk (s.data.map Char.toLower)

/-- Substring containment on character lists (JavaScript `String.prototype.includes`). -/
def charsContain (l sub : List Char) : Bool :=
  match l with
  | [] => sub.isEmpty
  | _ :: t => sub.isPrefixOf l || charsContain t sub

/-- JavaScript `a.includes(b)`. -/
def strIncludes (a b : String) : Bool :=
  charsContain a.data b.data

/-- Models a branch wrapped in `.catch(err => d)`: a rejected promise degrades
to the default value `d`. -/
def exceptDegrade {α : Type} (d : α) : Except String α → α
  | .ok a => a
  | .error _ => d

/-- Competition tier (`'low' | 'medium' | 'high'` in `types.ts`, absent from the
snapshot; the three-value union appears verbatim in `keyword-estimates.ts`). -/
inductive Competition where
  | low
  | medium
  | high
deriving DecidableEq, Repr

/-- `KeywordData` from `types.ts` (file absent from the snapshot).
Modelled from the spec: KeywordDatum — keyword text, monthly search volume,
average CPC, competition tier, associated service, optional associated city. -/
structure KeywordData where
  keyword : String
  monthlySearches : ℤ
  avgCpc : ℚ
  competition : Competition
  service : String
  city : Option String := none
deriving DecidableEq, Repr

/-- `ServiceEstimate` from `keyword-estimates.ts`. -/
structure ServiceEstimate where
  cpcRange : ℚ × ℚ
  volumeRange : ℚ × ℚ
  competition : Competition
  keywords : List String
deriving DecidableEq

/-- The `SERVICE_ESTIMATES` table from `keyword-estimates.ts` (insertion order kept). -/
def SERVICE_ESTIMATES : List (String × ServiceEstimate) :=
  [ ("exterior painting",
      { cpcRange := (12, 32), volumeRange := (400, 2400), competition := .high,
        keywords := ["exterior painting", "exterior house painting",
          "exterior painter near me", "outside house painting",
          "home exterior painting", "house painting"] }),
    ("interior painting",
      { cpcRange := (8, 22), volumeRange := (300, 1800), competition := .medium,
        keywords := ["interior painting", "interior house painting",
          "interior painter near me", "room painting", "indoor painting",
          "house painting interior"] }),
    ("cabinet painting",
      { cpcRange := (6, 18), volumeRange := (120, 700), competition := .low,
        keywords := ["cabinet painting", "kitchen cabinet painting",
          "cabinet refinishing", "cabinet painter near me",
          "paint kitchen cabinets"] }),
    ("commercial painting",
      { cpcRange := (10, 28), volumeRange := (80, 500), competition := .medium,
        keywords := ["commercial painting", "commercial painter",
          "office painting", "business painting",
          "commercial painting contractor"] }),
    ("deck staining",
      { cpcRange := (5, 15), volumeRange := (100, 600), competition := .low,
        keywords := ["deck staining", "deck refinishing", "deck stain near me",
          "wood deck staining", "deck restoration"] }) ]

/-- `calculateMarketFactor` from `keyword-estimates.ts`:
`Math.round((min(cc/20,1)*0.35 + min(avg/400,1)*0.65) * 100) / 100`. -/
def calculateMarketFactor (competitorCount avgReviewCount : ℚ) : ℚ :=
  roundCents (min (competitorCount / 20) 1 * (7/20) + min (avgReviewCount / 400) 1 * (13/20))

/-- `EstimateMarketDataProvider.setMarketFactor`: the clamp
`Math.max(0, Math.min(1, factor))` applied to the stored market factor. -/
def setMarketFactor (factor : ℚ) : ℚ :=
  max 0 (min 1 factor)

/-- `interpolate` from `keyword-estimates.ts`. -/
def interpolate (range : ℚ × ℚ) (factor : ℚ) : ℚ :=
  roundCents (range.1 + (range.2 - range.1) * factor)

/-- `findServiceEstimates`: direct key match, then partial (substring either way). -/
def findServiceEstimates (normalizedService : String) : Option ServiceEstimate :=
  match SERVICE_ESTIMATES.lookup normalizedService with
  | some e => some e
  | none =>
    (SERVICE_ESTIMATES.find? (fun p =>
      strIncludes normalizedService p.1 || strIncludes p.1 normalizedService)).map (·.2)

/-- The body of the per-keyword loop of `EstimateMarketDataProvider.getKeywordData`:
the base (city-free) entry followed by one city-qualified variant per city, with
volume fraction `0.20 + factor * 0.15` and CPC uplift `1.15` rounded to cents. -/
def knownEntriesForKeyword (service keyword : String) (comp : Competition)
    (baseVolume : ℤ) (baseCpc : ℚ) (cities : List String) (factor : ℚ) :
    List KeywordData :=
  { keyword := keyword, monthlySearches := baseVolume, avgCpc := baseCpc,
    competition := comp, service := service, city := none } ::
  cities.map (fun city =>
    { keyword := keyword ++ " " ++ city,
      monthlySearches := jsRound ((baseVolume : ℚ) * (1/5 + factor * (3/20))),
      avgCpc := roundCents (baseCpc * (23/20)),
      competition := comp, service := service, city := some city })

/-- The body of the per-keyword loop of `generateGenericEstimates`: the base
entry followed by one city variant per city, with fixed city volume fraction
`0.25` and CPC uplift `1.15` rounded to cents. -/
def genericEntriesForKeyword (service keyword : String) (baseVolume : ℤ)
    (baseCpc : ℚ) (cities : List String) : List KeywordData :=
  { keyword := keyword, monthlySearches := baseVolume, avgCpc := baseCpc,
    competition := .medium, service := service, city := none } ::
  cities.map (fun city =>
    { keyword := keyword ++ " " ++ city,
      monthlySearches := jsRound ((baseVolume : ℚ) * (1/4)),
      avgCpc := roundCents (baseCpc * (23/20)),
      competition := .medium, service := service, city := some city })

/-- `generateGenericEstimates` from `keyword-estimates.ts`: generic
`$8-$20` CPC / `80-400` volume ranges, fixed `medium` competition. -/
def generateGenericEstimates (service : String) (cities : List String)
    (factor : ℚ) : List KeywordData :=
  [jsToLower service, jsToLower service ++ " near me",
   jsToLower service ++ " contractor", jsToLower service ++ " services"].flatMap
    (fun keyword =>
      genericEntriesForKeyword service keyword
        (jsRound (interpolate (80, 400) factor)) (interpolate (8, 20) factor)
        cities)

/-- The per-service body of `EstimateMarketDataProvider.getKeywordData`:
known services use their template ranges, unknown services fall back to
`generateGenericEstimates`. -/
def serviceEntries (service : String) (cities : List String) (factor : ℚ) :
    List KeywordData :=
  match findServiceEstimates (jsToLower service) with
  | none => generateGenericEstimates service cities factor
  | some est =>
    est.keywords.flatMap (fun keyword =>
      knownEntriesForKeyword service keyword est.competition
        (jsRound (interpolate est.volumeRange factor))
        (interpolate est.cpcRange factor) cities factor)

/-- `EstimateMarketDataProvider.getKeywordData` with the provider's stored
`marketFactor` made an explicit argument. -/
def EstimateMarketDataProvider.getKeywordData (services cities : List String)
    (marketFactor : ℚ) : List KeywordData :=
  services.flatMap (fun service => serviceEntries service cities marketFactor)

/-- Relation used by claim C9: the city-qualified entry `kd` is derived from a
base entry of the same output list by a volume fraction in `[0.20, 0.35]`
(applied before integer rounding) and the exact `1.15×` CPC uplift rounded to cents. -/
def cityVariantConsistent (out : List KeywordData) (kd : KeywordData)
    (city : String) : Prop :=
  ∃ base ∈ out, ∃ frac : ℚ,
    base.city = none ∧
    base.service = kd.service ∧
    kd.keyword = base.keyword ++ " " ++ city ∧
    1/5 ≤ frac ∧ frac ≤ 7/20 ∧
    kd.monthlySearches = jsRound ((base.monthlySearches : ℚ) * frac) ∧
    kd.avgCpc = roundCents (base.avgCpc * (23/20))

/-! ### Google Ads Keyword Planner provider (`google-ads-keyword-planner.ts`) -/

/-- `keyword_idea_metrics` of one keyword idea returned by the Keyword Planner
API (the fields read by `getKeywordData`). -/
structure KeywordIdeaMetrics where
  averageCpcMicros : Option ℚ
  avgMonthlySearches : Option ℤ
  competition : Option Competition
deriving DecidableEq

/-- One keyword idea returned by `generateKeywordIdeas`. -/
structure KeywordIdea where
  text : Option String
  metrics : Option KeywordIdeaMetrics
deriving DecidableEq

/-- `mapCompetition`: unknown enum values default to `medium`. -/
def mapCompetition (level : Option Competition) : Competition :=
  level.getD .medium

/-- `microsToDollars`: `if (!micros) return 0; round((micros/1e6)*100)/100`. -/
def microsToDollars (micros : Option ℚ) : ℚ :=
  match micros with
  | none => 0
  | some m => if m = 0 then 0 else roundCents (m / 1000000)

/-- `GoogleAdsKeywordPlannerProvider.getKeywordData`, with the network call
`generateKeywordIdeas` abstracted as a per-service oracle.  Each service's API
error is caught and skipped; ideas with no metrics or with all-zero figures are
dropped; a city is attached when the keyword text contains a target city. -/
def GoogleAdsKeywordPlannerProvider.getKeywordData
    (generateIdeas : String → Except String (List KeywordIdea))
    (services cities : List String) : List KeywordData :=
  services.flatMap (fun service =>
    match generateIdeas service with
    | .error _ => []
    | .ok ideas =>
      if ideas.isEmpty then []
      else ideas.filterMap (fun idea =>
        match idea.metrics with
        | none => none
        | some metrics =>
          let keyword := idea.text.getD ""
          let avgCpc := microsToDollars metrics.averageCpcMicros
          let monthlySearches := metrics.avgMonthlySearches.getD 0
          if monthlySearches = 0 ∧ avgCpc = 0 then none
          else
            some { keyword := keyword, monthlySearches := monthlySearches,
                   avgCpc := avgCpc,
                   competition := mapCompetition metrics.competition,
                   service := service,
                   city := cities.find? (fun city =>
                     strIncludes (jsToLower keyword) (jsToLower city)) }))

/-- The idea oracle of an unconfigured provider: every Google Ads API call is
rejected (missing credentials), so each per-service `try` block ends in its
`catch`. -/
def failingIdeas : String → Except String (List KeywordIdea) :=
  fun _ => .error "Google Ads API request failed: missing credentials"

/-! ### Quota gate (`db.ts` `getUsageQuota`, `middleware/usage.ts`) -/

/-- `DEFAULT_MONTHLY_QUOTA` from `db.ts`. -/
def DEFAULT_MONTHLY_QUOTA : ℕ := 10

/-- `UsageQuota` from `types.ts` (file absent from the snapshot).
Modelled from the spec: used count, limit, remaining, billing period bounds. -/
structure UsageQuota where
  used : ℕ
  limit : ℕ
  remaining : ℕ
  periodStart : String
  periodEnd : String
deriving DecidableEq, Repr

/-- `getUsageQuota` from `db.ts`, with the ledger count query abstracted as an
`Except` outcome.  On a query error it returns the fail-closed quota
`{used: limit, remaining: 0}`; otherwise `remaining = max(0, limit - used)`
(natural subtraction). -/
def getUsageQuota (countRes : Except String ℕ) (periodStart periodEnd : String) :
    UsageQuota :=
  match countRes with
  | .error _ =>
    { used := DEFAULT_MONTHLY_QUOTA, limit := DEFAULT_MONTHLY_QUOTA,
      remaining := 0, periodStart := periodStart, periodEnd := "" }
  | .ok count =>
    { used := count, limit := DEFAULT_MONTHLY_QUOTA,
      remaining := DEFAULT_MONTHLY_QUOTA - count,
      periodStart := periodStart, periodEnd := periodEnd }

/-- `AuthContext` from `middleware/auth.ts`. -/
structure AuthContext where
  accountId : String
  userId : String
deriving DecidableEq

/-- Outcome of the usage middleware: pass the request on, or reply 401/429. -/
inductive GateOutcome where
  | denied401
  | denied429 (quota : UsageQuota)
  | allowed (quota : UsageQuota)
deriving DecidableEq

/-- `createUsageMiddleware` from `middleware/usage.ts`: dev bypass, then the
auth check, then `getUsageQuota`; the request is rejected with 429 when
`quota.remaining <= 0`. -/
def createUsageMiddleware (devBypass : Bool) (auth : Option AuthContext)
    (countRes : Except String ℕ) (periodStart periodEnd : String) : GateOutcome :=
  if devBypass then
    .allowed { used := 0, limit := 999, remaining := 999, periodStart := "", periodEnd := "" }
  else
    match auth with
    | none => .denied401
    | some _ =>
      let quota := getUsageQuota countRes periodStart periodEnd
      if quota.remaining ≤ 0 then .denied429 quota else .allowed quota

/-! ### Analysis result data model

`types.ts` is absent from the snapshot; the result shapes below are modelled
from the spec (§3) and from the field lists that appear in
`providers/interfaces.ts` and the prompt schema of the synthesis adapter. -/

/-- Modelled from the spec: one competitor row of `PlacesCompetitor`
(CompetitorRecord §3). -/
structure PlacesCompetitor where
  placeId : String
  name : String
  rating : Option ℚ := none
  reviewCount : Option ℤ := none
  address : Option String := none
deriving DecidableEq

/-- Modelled from the spec: one SERP snapshot (SearchSnapshot §6). -/
structure SerpResult where
  query : String
  location : String
deriving DecidableEq

/-- `CrmServiceBreakdown` row of the CRM snapshot (`db.ts`). -/
structure CrmServiceBreakdown where
  service : String
  quoteCount : ℤ
  winRate : ℚ
  avgDealSize : ℤ
  totalRevenue : ℤ
deriving DecidableEq

/-- `CrmSnapshot` assembled by `getCrmSnapshot` in `db.ts`. -/
structure CrmSnapshot where
  totalQuotes : ℤ
  wonQuotes : ℤ
  totalRevenue : ℤ
  avgDealSize : ℤ
  serviceBreakdown : List CrmServiceBreakdown
  topCities : List (String × ℤ)
deriving DecidableEq

/-- Modelled from the spec: one ranked service opportunity (fields from the
synthesis prompt schema in the LLM provider). -/
structure ServiceOpportunity where
  service : String
  monthlySearches : ℚ
  avgCpc : ℚ
  competition : Competition
  crmWinRate : Option ℚ := none
  crmAvgDealSize : Option ℚ := none
  crmQuoteCount : Option ℚ := none
  recommendation : String := ""
  rank : ℚ := 0
deriving DecidableEq

/-- Modelled from the spec: one competitor snapshot of the analysis result. -/
structure CompetitorSnapshot where
  name : String
  rating : Option ℚ := none
  reviewCount : Option ℚ := none
  address : Option String := none
  adHeadlines : Option (List String) := none
  adDescriptions : Option (List String) := none
  insight : Option String := none
deriving DecidableEq

/-- Modelled from the spec: one recommended target city. -/
structure RecommendedCity where
  city : String
  state : String
  estimatedSearches : Option ℚ := none
  avgCpc : Option ℚ := none
  competition : Option Competition := none
  distanceMiles : Option ℚ := none
  reason : String := ""
  recommended : Bool := false
deriving DecidableEq

/-- Modelled from the spec: the budget recommendation block. -/
structure BudgetRecommendation where
  recommendedDailyBudget : ℚ := 0
  recommendedHardCap : ℚ := 0
  estimatedClicksPerDay : ℚ := 0
  estimatedCallsPerWeek : ℚ := 0
  estimatedCostPerCall : ℚ := 0
  projectedRevenuePerMonth : Option ℚ := none
  projectedRoi : Option ℚ := none
  rationale : String := ""
deriving DecidableEq

/-- `MarketOverview` assembled in `MarketAnalysisService.analyze`. -/
structure MarketOverview where
  summary : String
  competitionLevel : Competition
  marketInsight : String
  websiteAnalysis : Option String := none
deriving DecidableEq

/-- `MarketAnalysis` assembled in `MarketAnalysisService.analyze`; `id` is the
identifier attached after the persistence write (`None` when the write failed). -/
structure MarketAnalysis where
  overview : MarketOverview
  serviceOpportunities : List ServiceOpportunity
  competitors : List CompetitorSnapshot
  recommendedCities : List RecommendedCity
  budgetRecommendation : BudgetRecommendation
  dataSourcesUsed : List String
  generatedAt : String
  id : Option String := none
deriving DecidableEq

/-- `LlmMarketAnalysisInput` from `providers/interfaces.ts`. -/
structure LlmMarketAnalysisInput where
  services : List String
  zipCode : String
  keywords : List KeywordData
  competitors : List PlacesCompetitor
  serpResults : List SerpResult
  crmData : Option CrmSnapshot
  websiteUrl : Option String := none
  websiteContent : Option String := none
deriving DecidableEq

/-- `LlmMarketAnalysisOutput` from `providers/interfaces.ts`. -/
structure LlmMarketAnalysisOutput where
  summary : String
  serviceOpportunities : List ServiceOpportunity
  competitorSnapshots : List CompetitorSnapshot
  recommendedCities : List RecommendedCity
  budgetRecommendation : BudgetRecommendation
  competitionLevel : Competition
  marketInsight : String
  websiteAnalysis : Option String := none
deriving DecidableEq

/-- `MarketAnalysisRequest` shape used by `analyze` (route defaults applied
upstream; `analyze` itself re-defaults `targetCities` with `|| []`). -/
structure MarketAnalysisRequest where
  zipCode : String
  services : List String
  targetCities : Option (List String) := none
  radiusMiles : Option ℚ := none
  websiteUrl : Option String := none
deriving DecidableEq

/-- One row of the `growth_usage_log` ledger written by `logUsageEvent`. -/
structure UsageEvent where
  accountId : String
  userId : String
  eventType : String
deriving DecidableEq

/-- `logUsageEvent` from `db.ts`: the insert either appends one row or fails;
an insert error is logged and swallowed, so no error ever escapes. -/
def logUsageEvent (insertOk : Bool) (accountId userId eventType : String) :
    List UsageEvent :=
  if insertOk then [{ accountId := accountId, userId := userId, eventType := eventType }]
  else []

/-! ### Aggregation orchestrator (`MarketAnalysisService.analyze`) -/

/-- External effects consumed by one `analyze` call: the five data-gathering
branches (as oracles keyed by their real arguments), the reasoning engine, the
outcome of `saveMarketAnalysis` (`some id`, or `none` when the insert errored),
the outcome of the `logUsageEvent` insert, and the generation timestamp. -/
structure AnalyzeEnv where
  getCompetitors : String → Option ℚ → Except String (List PlacesCompetitor)
  getSerp : MarketAnalysisRequest → Except String (List SerpResult)
  getCrm : String → Except String (Option CrmSnapshot)
  getWebsite : String → Except String String
  getKeywordData : List String → List String → Except String (List KeywordData)
  llm : LlmMarketAnalysisInput → Except String LlmMarketAnalysisOutput
  saveRes : Option String
  ledgerOk : Bool
  now : String

/-- The website branch: run only when a URL was supplied, and degraded to
`null` on any fetch error. -/
def websiteBranch (env : AnalyzeEnv) (request : MarketAnalysisRequest) :
    Option String :=
  match request.websiteUrl with
  | some url =>
    match env.getWebsite url with
    | .ok content => some content
    | .error _ => none
  | none => none

/-- The aggregated synthesis payload `llmInput` built by `analyze`: every
branch is wrapped so a failure degrades to an empty/`null` value. -/
def llmPayload (env : AnalyzeEnv) (request : MarketAnalysisRequest)
    (accountId : String) : LlmMarketAnalysisInput :=
  { services := request.services,
    zipCode := request.zipCode,
    keywords := exceptDegrade []
      (env.getKeywordData request.services (request.targetCities.getD [])),
    competitors := exceptDegrade []
      (env.getCompetitors request.zipCode request.radiusMiles),
    serpResults := exceptDegrade [] (env.getSerp request),
    crmData := exceptDegrade none (env.getCrm accountId),
    websiteUrl := request.websiteUrl,
    websiteContent := websiteBranch env request }

/-- `getDataSourcesUsed` from `MarketAnalysisService`: one name per source that
returned non-empty data, then always the reasoning-engine name. -/
def getDataSourcesUsed (keywordCount competitorCount serpCount : ℕ)
    (hasCrm : Bool) : List String :=
  (if keywordCount > 0 then ["google_ads_keyword_planner"] else []) ++
  (if competitorCount > 0 then ["google_places"] else []) ++
  (if serpCount > 0 then ["serper_serp"] else []) ++
  (if hasCrm then ["crm_data"] else []) ++
  ["openai_llm"]

/-- The `MarketAnalysis` assembled by `analyze` from the synthesis output:
the provenance list reflects the (already degraded) branch values, and the
identifier attached at the end is the persistence-write outcome. -/
def analysisOf (env : AnalyzeEnv) (request : MarketAnalysisRequest)
    (accountId : String) (llmOutput : LlmMarketAnalysisOutput) : MarketAnalysis :=
  let input := llmPayload env request accountId
  { overview :=
      { summary := llmOutput.summary,
        competitionLevel := llmOutput.competitionLevel,
        marketInsight := llmOutput.marketInsight,
        websiteAnalysis := llmOutput.websiteAnalysis },
    serviceOpportunities := llmOutput.serviceOpportunities,
    competitors := llmOutput.competitorSnapshots,
    recommendedCities := llmOutput.recommendedCities,
    budgetRecommendation := llmOutput.budgetRecommendation,
    dataSourcesUsed := getDataSourcesUsed input.keywords.length
      input.competitors.length input.serpResults.length input.crmData.isSome,
    generatedAt := env.now,
    id := env.saveRes }

/-- `MarketAnalysisService.analyze`: gather the degraded branch values, invoke
the reasoning engine (whose failure propagates), assemble the `MarketAnalysis`,
perform the persistence write and the ledger write, attach the (possibly null)
identifier, and return the analysis together with the ledger rows written. -/
def MarketAnalysisService.analyze (env : AnalyzeEnv)
    (request : MarketAnalysisRequest) (accountId userId : String) :
    Except String (MarketAnalysis × List UsageEvent) :=
  match env.llm (llmPayload env request accountId) with
  | .error e => .error e
  | .ok llmOutput =>
    .ok (analysisOf env request accountId llmOutput,
      logUsageEvent env.ledgerOk accountId userId "market_analysis")

/-- The all-empty synthesis payload of spec §8 ("synthesis still runs on an
all-empty payload"). -/
def emptyPayload (request : MarketAnalysisRequest) : LlmMarketAnalysisInput :=
  { services := request.services, zipCode := request.zipCode,
    keywords := [], competitors := [], serpResults := [], crmData := none,
    websiteUrl := request.websiteUrl, websiteContent := none }

/-! ### Plan derivation (`PlanGenerationService.generatePlan`,
`routes/analysis.ts` read-back) -/

/-- `AdCopy` (headline/description lists). -/
structure AdCopy where
  headlines : List String
  descriptions : List String
deriving DecidableEq

/-- Keyword match type of a plan keyword. -/
inductive MatchType where
  | broad
  | phrase
  | exact
deriving DecidableEq

/-- One keyword row of a campaign. -/
structure PlanKeyword where
  keyword : String
  matchType : MatchType
deriving DecidableEq

/-- One campaign of `LlmPlanOutput` (`providers/interfaces.ts`);
`negativeKeywords` is optional there. -/
structure LlmPlanCampaign where
  name : String
  service : String
  targetCity : String
  dailyBudget : ℚ
  keywords : List PlanKeyword
  negativeKeywords : Option (List String) := none
  adCopy : AdCopy
  estimatedClicksPerDay : ℚ
  estimatedCostPerClick : ℚ
deriving DecidableEq

/-- `LlmPlanOutput` from `providers/interfaces.ts`. -/
structure LlmPlanOutput where
  campaigns : List LlmPlanCampaign
  summary : String
deriving DecidableEq

/-- One campaign of the assembled `CampaignPlan` (`negativeKeywords`
defaulted to `[]`). -/
structure Campaign where
  name : String
  service : String
  targetCity : String
  dailyBudget : ℚ
  keywords : List PlanKeyword
  negativeKeywords : List String
  adCopy : AdCopy
  estimatedClicksPerDay : ℚ
  estimatedCostPerClick : ℚ
deriving DecidableEq

/-- `CampaignPlan` assembled by `generatePlan`; `id` is attached after the
persistence write. -/
structure CampaignPlan where
  analysisId : String
  campaigns : List Campaign
  totalDailyBudget : ℚ
  hardCap : ℚ
  summary : String
  generatedAt : String
  id : Option String := none
deriving DecidableEq

/-- `PlanGenerationRequest` shape used by `generatePlan`. -/
structure PlanGenerationRequest where
  analysisId : String
  selectedServices : List String
  selectedCities : List String
  dailyBudget : ℚ
  hardCap : ℚ
  phoneNumber : String := ""
deriving DecidableEq

/-- `LlmPlanInput` from `providers/interfaces.ts`. -/
structure LlmPlanInput where
  summary : String
  serviceOpportunities : List ServiceOpportunity
  competitors : List CompetitorSnapshot
  budgetRecommendation : BudgetRecommendation
  selectedServices : List String
  selectedCities : List String
  dailyBudget : ℚ
  hardCap : ℚ
  phoneNumber : String
deriving DecidableEq

/-- One stored row of `growth_market_analyses`. -/
structure AnalysisRow where
  id : String
  accountId : String
  resultData : MarketAnalysis
deriving DecidableEq

/-- The `growth_market_analyses` lookup used by both `generatePlan` and the
`GET /api/analyze/:id` route: select by `id` *and* `account_id`. -/
def lookupAnalysis (db : List AnalysisRow) (analysisId accountId : String) :
    Option AnalysisRow :=
  db.find? (fun r => r.id == analysisId && r.accountId == accountId)

/-- The `LlmPlanInput` built by `generatePlan` from the stored analysis and
the user selections. -/
def planLlmInput (row : AnalysisRow) (request : PlanGenerationRequest) :
    LlmPlanInput :=
  { summary := row.resultData.overview.summary,
    serviceOpportunities := row.resultData.serviceOpportunities,
    competitors := row.resultData.competitors,
    budgetRecommendation := row.resultData.budgetRecommendation,
    selectedServices := request.selectedServices,
    selectedCities := request.selectedCities,
    dailyBudget := request.dailyBudget,
    hardCap := request.hardCap,
    phoneNumber := request.phoneNumber }

/-- The field-by-field copy of one reasoning-engine campaign into the plan
(`negativeKeywords` defaulted to `[]`; no field is validated or recomputed). -/
def campaignOf (c : LlmPlanCampaign) : Campaign :=
  { name := c.name, service := c.service, targetCity := c.targetCity,
    dailyBudget := c.dailyBudget, keywords := c.keywords,
    negativeKeywords := c.negativeKeywords.getD [],
    adCopy := c.adCopy,
    estimatedClicksPerDay := c.estimatedClicksPerDay,
    estimatedCostPerClick := c.estimatedCostPerClick }

/-- The `CampaignPlan` assembled by `generatePlan` from the reasoning-engine
output, user selections, and the persistence-write outcome. -/
def planOf (request : PlanGenerationRequest) (llmOutput : LlmPlanOutput)
    (savePlanRes : Option String) (now : String) : CampaignPlan :=
  { analysisId := request.analysisId,
    campaigns := llmOutput.campaigns.map campaignOf,
    totalDailyBudget := request.dailyBudget,
    hardCap := request.hardCap,
    summary := llmOutput.summary,
    generatedAt := now,
    id := savePlanRes }

/-- `PlanGenerationService.generatePlan`: load the stored analysis scoped by
account (a missing or foreign row is the single NotFound error), invoke the
reasoning engine, copy its campaigns field-by-field (no CPC validation),
attach the persistence outcome, and record the ledger rows written. -/
def PlanGenerationService.generatePlan (db : List AnalysisRow)
    (llm : LlmPlanInput → Except String LlmPlanOutput)
    (savePlanRes : Option String) (ledgerOk : Bool) (now : String)
    (request : PlanGenerationRequest) (accountId userId : String) :
    Except String (CampaignPlan × List UsageEvent) :=
  match lookupAnalysis db request.analysisId accountId with
  | none => .error ("Market analysis not found: " ++ request.analysisId)
  | some row =>
    match llm (planLlmInput row request) with
    | .error e => .error e
    | .ok llmOutput =>
      .ok (planOf request llmOutput savePlanRes now,
        logUsageEvent ledgerOk accountId userId "plan_generation")

/-- The `GET /api/analyze/:id` read-back route (`routes/analysis.ts`): the same
account-scoped lookup; a missing or foreign row is a 404. -/
def getStoredAnalysis (db : List AnalysisRow) (analysisId accountId : String) :
    Except ℕ (String × MarketAnalysis) :=
  match lookupAnalysis db analysisId accountId with
  | none => .error 404
  | some row => .ok (row.id, row.resultData)

/-! ### Synthesis adapter response handling (`OpenAiLlmProvider`) -/

/-- A JSON value (the reasoning engine replies with a JSON document). -/
inductive Json where
  | null
  | bool (b : Bool)
  | num (q : ℚ)
  | str (s : String)
  | arr (elems : List Json)
  | obj (fields : List (String × Json))

/-- Field lookup on a JSON object. -/
def Json.getField (j : Json) (name : String) : Option Json :=
  match j with
  | .obj fields => fields.lookup name
  | _ => none

/-- The response handling of `OpenAiLlmProvider.synthesizeMarketAnalysis`:
a missing or empty `content` throws, otherwise the content is handed to
`JSON.parse` (abstracted as `parse`) and the parsed value is returned as-is —
the `as LlmMarketAnalysisOutput` cast performs no runtime validation. -/
def synthesizeMarketAnalysis (content : Option String)
    (parse : String → Except String Json) : Except String Json :=
  match content with
  | none => .error "LLM returned empty response"
  | some c => if c = "" then .error "LLM returned empty response" else parse c

/-- Modelled from the spec: the structural `MarketAnalysisResult` shape of §3
(top-level required fields of the synthesis output schema).  Used only to be
compared against the adapter's actual behaviour. -/
def specMarketAnalysisShape (j : Json) : Bool :=
  (match j.getField "summary" with | some (.str _) => true | _ => false) &&
  (match j.getField "competitionLevel" with
   | some (.str s) => s == "low" || s == "medium" || s == "high"
   | _ => false) &&
  (match j.getField "marketInsight" with | some (.str _) => true | _ => false) &&
  (match j.getField "serviceOpportunities" with | some (.arr _) => true | _ => false) &&
  (match j.getField "competitorSnapshots" with | some (.arr _) => true | _ => false) &&
  (match j.getField "recommendedCities" with | some (.arr _) => true | _ => false) &&
  (match j.getField "budgetRecommendation" with | some (.obj _) => true | _ => false)

/-! ### Concrete fixtures for witnesses and counterexamples -/

/-- A minimal well-formed reasoning-engine analysis output. -/
def sampleLlmOut : LlmMarketAnalysisOutput :=
  { summary := "market summary", serviceOpportunities := [],
    competitorSnapshots := [], recommendedCities := [],
    budgetRecommendation := {}, competitionLevel := .medium,
    marketInsight := "insight" }

/-- Scenario-A style request: zip `92101`, one service, empty target cities. -/
def reqA : MarketAnalysisRequest :=
  { zipCode := "92101", services := ["interior painting"],
    targetCities := some [], radiusMiles := some 25 }

/-- An environment in which every data-gathering branch rejects. -/
def envAllFail : AnalyzeEnv :=
  { getCompetitors := fun _ _ => .error "places down",
    getSerp := fun _ => .error "serper down",
    getCrm := fun _ => .error "crm down",
    getWebsite := fun _ => .error "fetch failed",
    getKeywordData := fun _ _ => .error "planner down",
    llm := fun _ => .ok sampleLlmOut,
    saveRes := some "an-4", ledgerOk := true, now := "2026-01-01T00:00:00Z" }

/-- Scenario A environment: the keyword branch is the unconfigured Keyword
Planner provider, competitor discovery finds nothing. -/
def envScenarioA : AnalyzeEnv :=
  { getCompetitors := fun _ _ => .ok [],
    getSerp := fun _ => .ok [],
    getCrm := fun _ => .ok none,
    getWebsite := fun _ => .error "no url",
    getKeywordData := fun services cities =>
      .ok (GoogleAdsKeywordPlannerProvider.getKeywordData failingIdeas services cities),
    llm := fun _ => .ok sampleLlmOut,
    saveRes := some "an-2", ledgerOk := true, now := "2026-01-01T00:00:00Z" }

/-- An environment whose primary persistence write fails (`saveRes = none`)
while everything else succeeds. -/
def envSaveFail : AnalyzeEnv :=
  { getCompetitors := fun _ _ => .ok [],
    getSerp := fun _ => .ok [],
    getCrm := fun _ => .ok none,
    getWebsite := fun _ => .error "no url",
    getKeywordData := fun _ _ => .ok [],
    llm := fun _ => .ok sampleLlmOut,
    saveRes := none, ledgerOk := true, now := "2026-01-01T00:00:00Z" }

/-- A stored analysis whose `interior painting` opportunity records `avgCpc = 10`. -/
def storedAnalysisA : MarketAnalysis :=
  { overview := { summary := "stored summary", competitionLevel := .medium,
                  marketInsight := "stored insight" },
    serviceOpportunities :=
      [{ service := "interior painting", monthlySearches := 900, avgCpc := 10,
         competition := .medium, rank := 1 }],
    competitors := [], recommendedCities := [], budgetRecommendation := {},
    dataSourcesUsed := ["openai_llm"], generatedAt := "2026-01-01T00:00:00Z",
    id := some "an-1" }

/-- The stored row owning `storedAnalysisA` under account `acct-1`. -/
def rowA : AnalysisRow :=
  { id := "an-1", accountId := "acct-1", resultData := storedAnalysisA }

/-- A one-row `growth_market_analyses` table. -/
def dbA : List AnalysisRow := [rowA]

/-- A reasoning-engine plan whose campaign quotes `estimatedCostPerClick = 5`
for `interior painting` — different from the stored opportunity's `avgCpc = 10`. -/
def planOutA : LlmPlanOutput :=
  { campaigns :=
      [{ name := "[PW] Interior Painting", service := "interior painting",
         targetCity := "San Diego", dailyBudget := 50, keywords := [],
         adCopy := { headlines := [], descriptions := [] },
         estimatedClicksPerDay := 10, estimatedCostPerClick := 5 }],
    summary := "plan summary" }

/-- A plan-generation reasoning engine returning `planOutA`. -/
def planLlmA : LlmPlanInput → Except String LlmPlanOutput :=
  fun _ => .ok planOutA

/-- A plan request against analysis `an-1`. -/
def planReqA : PlanGenerationRequest :=
  { analysisId := "an-1", selectedServices := ["interior painting"],
    selectedCities := ["San Diego"], dailyBudget := 50, hardCap := 1500 }

/-- The `cabinet painting` row of `SERVICE_ESTIMATES`. -/
def cabinetEst : ServiceEstimate :=
  { cpcRange := (6, 18), volumeRange := (120, 700), competition := .low,
    keywords := ["cabinet painting", "kitchen cabinet painting",
      "cabinet refinishing", "cabinet painter near me",
      "paint kitchen cabinets"] }

/-- The city-qualified keyword produced for `cabinet painting` / city `x` at
market factor `0`. -/
def c9CityKeyword : KeywordData :=
  { keyword := "cabinet painting x", monthlySearches := 24, avgCpc := 69/10,
    competition := .low, service := "cabinet painting", city := some "x" }

/-! ## Helper lemmas -/

/-- With an unconfigured credential set every per-service Keyword Planner call
ends in its `catch`, so the provider returns the empty list. -/
theorem planner_unconfigured_empty (services cities : List String) :
    GoogleAdsKeywordPlannerProvider.getKeywordData failingIdeas services cities = [] := by
  simp [GoogleAdsKeywordPlannerProvider.getKeywordData, failingIdeas]

/-- Reducing `analyze` when the reasoning engine succeeds. -/
theorem analyze_ok (env : AnalyzeEnv) (request : MarketAnalysisRequest)
    (accountId userId : String) (out : LlmMarketAnalysisOutput)
    (h : env.llm (llmPayload env request accountId) = .ok out) :
    MarketAnalysisService.analyze env request accountId userId =
      .ok (analysisOf env request accountId out,
        logUsageEvent env.ledgerOk accountId userId "market_analysis") := by
  unfold MarketAnalysisService.analyze
  rw [h]

/-- Reducing `generatePlan` when the lookup and the reasoning engine succeed. -/
theorem generatePlan_ok (db : List AnalysisRow)
    (llm : LlmPlanInput → Except String LlmPlanOutput)
    (savePlanRes : Option String) (ledgerOk : Bool) (now : String)
    (request : PlanGenerationRequest) (accountId userId : String)
    (row : AnalysisRow) (out : LlmPlanOutput)
    (hrow : lookupAnalysis db request.analysisId accountId = some row)
    (hllm : llm (planLlmInput row request) = .ok out) :
    PlanGenerationService.generatePlan db llm savePlanRes ledgerOk now request
        accountId userId =
      .ok (planOf request out savePlanRes now,
        logUsageEvent ledgerOk accountId userId "plan_generation") := by
  unfold PlanGenerationService.generatePlan
  rw [hrow]
  dsimp only
  rw [hllm]

/-! ## Claim theorems -/

/-- C3: for every account, when the ledger count query fails, `getUsageQuota`
fails closed — it reports `used = limit` and `remaining = 0` — and the usage
middleware of a gated endpoint denies the request with a 429 rather than
letting the expensive operation start. -/
theorem C3_quota_gate_fails_closed (err periodStart periodEnd : String)
    (a : AuthContext) :
    (getUsageQuota (.error err) periodStart periodEnd).remaining = 0 ∧
    (getUsageQuota (.error err) periodStart periodEnd).used
      = (getUsageQuota (.error err) periodStart periodEnd).limit ∧
    createUsageMiddleware false (some a) (.error err) periodStart periodEnd
      = .denied429 (getUsageQuota (.error err) periodStart periodEnd) :=
  ⟨rfl, rfl, rfl⟩

/-- C8: for every pair of inputs — including negative and extreme values —
the market factor stored by `setMarketFactor` from the
`calculateMarketFactor` heuristic lies in `[0, 1]` (the clamp
`Math.max(0, Math.min(1, factor))` is part of `setMarketFactor`). -/
theorem C8_market_factor_clamped (competitorCount avgReviewCount : ℚ) :
    0 ≤ setMarketFactor (calculateMarketFactor competitorCount avgReviewCount) ∧
    setMarketFactor (calculateMarketFactor competitorCount avgReviewCount) ≤ 1 := by
  unfold setMarketFactor
  exact ⟨le_max_left 0 _, max_le (by norm_num) (min_le_left 1 _)⟩

/-- The ledger-write outcome never influences the analysis returned to the
caller (only the rows written to the ledger). -/
theorem analyze_ledger_independent (env : AnalyzeEnv)
    (req : MarketAnalysisRequest) (acct usr : String) (b₁ b₂ : Bool) :
    (MarketAnalysisService.analyze { env with ledgerOk := b₁ } req acct usr).map Prod.fst
      = (MarketAnalysisService.analyze { env with ledgerOk := b₂ } req acct usr).map Prod.fst := by
  unfold MarketAnalysisService.analyze
  cases hout : env.llm (llmPayload env req acct) with
  | error e =>
    have h₁ : ({ env with ledgerOk := b₁ } : AnalyzeEnv).llm
        (llmPayload { env with ledgerOk := b₁ } req acct) = .error e := hout
    have h₂ : ({ env with ledgerOk := b₂ } : AnalyzeEnv).llm
        (llmPayload { env with ledgerOk := b₂ } req acct) = .error e := hout
    rw [h₁, h₂]
  | ok out =>
    have h₁ : ({ env with ledgerOk := b₁ } : AnalyzeEnv).llm
        (llmPayload { env with ledgerOk := b₁ } req acct) = .ok out := hout
    have h₂ : ({ env with ledgerOk := b₂ } : AnalyzeEnv).llm
        (llmPayload { env with ledgerOk := b₂ } req acct) = .ok out := hout
    rw [h₁, h₂]
    rfl

/-- C5 (amended): a failed primary persistence write does **not** propagate —
`analyze` still returns the analysis, carrying a null identifier — while a
failed usage-ledger write only changes the rows written to the ledger, never
the analysis returned. -/
theorem C5_save_failure_swallowed (env : AnalyzeEnv)
    (req : MarketAnalysisRequest) (acct usr : String)
    (out : LlmMarketAnalysisOutput) (b₁ b₂ : Bool)
    (hllm : env.llm (llmPayload env req acct) = .ok out)
    (hsave : env.saveRes = none) :
    (∃ a evts, MarketAnalysisService.analyze env req acct usr = .ok (a, evts)
      ∧ a.id = none) ∧
    (MarketAnalysisService.analyze { env with ledgerOk := b₁ } req acct usr).map Prod.fst
      = (MarketAnalysisService.analyze { env with ledgerOk := b₂ } req acct usr).map Prod.fst := by
  refine ⟨⟨analysisOf env req acct out, _, analyze_ok env req acct usr out hllm, ?_⟩,
    analyze_ledger_independent env req acct usr b₁ b₂⟩
  simp [analysisOf, hsave]

/-- C5 witness: a concrete run in which the primary write fails yet the caller
receives a success response with a null id, and the ledger-write outcome is
irrelevant to the returned analysis. -/
theorem C5_witness :
    (∃ a evts, MarketAnalysisService.analyze envSaveFail reqA "acct-1" "user-1"
        = .ok (a, evts) ∧ a.id = none) ∧
    (MarketAnalysisService.analyze { envSaveFail with ledgerOk := true } reqA
        "acct-1" "user-1").map Prod.fst
      = (MarketAnalysisService.analyze { envSaveFail with ledgerOk := false } reqA
        "acct-1" "user-1").map Prod.fst :=
  C5_save_failure_swallowed envSaveFail reqA "acct-1" "user-1" sampleLlmOut
    true false rfl rfl

/-- C5 counterexample to the claim as stated: with the primary write failing
(`saveRes = none`), `analyze` returns a success (not an error) whose analysis
has a null identifier — the failure never propagates to the caller. -/
theorem C5_cex :
    envSaveFail.saveRes = none ∧
    (MarketAnalysisService.analyze envSaveFail reqA "acct-1" "user-1").map
        (fun p => p.1.id) = .ok none :=
  ⟨rfl, rfl⟩

/-- C10: when the primary persistence write fails, `analyze` nevertheless
appends one `market_analysis` event to the usage ledger (consuming monthly
quota) and returns the analysis with a null identifier, so the paid-for
analysis can never be read back. -/
theorem C10_quota_consumed_on_lost_write (env : AnalyzeEnv)
    (req : MarketAnalysisRequest) (acct usr : String)
    (out : LlmMarketAnalysisOutput)
    (hllm : env.llm (llmPayload env req acct) = .ok out)
    (hsave : env.saveRes = none) (hledger : env.ledgerOk = true) :
    ∃ a, MarketAnalysisService.analyze env req acct usr
        = .ok (a, [{ accountId := acct, userId := usr,
                     eventType := "market_analysis" }]) ∧
      a.id = none := by
  refine ⟨analysisOf env req acct out, ?_, by simp [analysisOf, hsave]⟩
  rw [analyze_ok env req acct usr out hllm, hledger]
  rfl

/-- C10 witness: the concrete failed-write run records the ledger event and
returns a null-id analysis. -/
theorem C10_witness :
    ∃ a, MarketAnalysisService.analyze envSaveFail reqA "acct-1" "user-1"
        = .ok (a, [{ accountId := "acct-1", userId := "user-1",
                     eventType := "market_analysis" }]) ∧
      a.id = none :=
  C10_quota_consumed_on_lost_write envSaveFail reqA "acct-1" "user-1"
    sampleLlmOut rfl rfl rfl

/-- Membership in the provenance list produced by `getDataSourcesUsed`. -/
theorem mem_getDataSourcesUsed (k c s : ℕ) (crm : Bool) (x : String) :
    x ∈ getDataSourcesUsed k c s crm ↔
      (0 < k ∧ x = "google_ads_keyword_planner") ∨
      (0 < c ∧ x = "google_places") ∨
      (0 < s ∧ x = "serper_serp") ∨
      (crm = true ∧ x = "crm_data") ∨
      x = "openai_llm" := by
  unfold getDataSourcesUsed
  split_ifs <;> simp_all

/-- C4: when every data-gathering branch fails or returns nothing, `analyze`
still returns a `MarketAnalysis` — the synthesis step runs on the all-empty
payload — and `dataSourcesUsed` is exactly the reasoning-engine name: every
failed source is excluded and no succeeded source exists to include. -/
theorem C4_degraded_pipeline_total (env : AnalyzeEnv)
    (req : MarketAnalysisRequest) (acct usr : String)
    (out : LlmMarketAnalysisOutput)
    (hcomp : exceptDegrade [] (env.getCompetitors req.zipCode req.radiusMiles)
      = ([] : List PlacesCompetitor))
    (hserp : exceptDegrade [] (env.getSerp req) = ([] : List SerpResult))
    (hcrm : exceptDegrade none (env.getCrm acct) = (none : Option CrmSnapshot))
    (hweb : websiteBranch env req = none)
    (hkw : exceptDegrade []
      (env.getKeywordData req.services (req.targetCities.getD []))
      = ([] : List KeywordData))
    (hllm : env.llm (llmPayload env req acct) = .ok out) :
    llmPayload env req acct = emptyPayload req ∧
    ∃ a evts, MarketAnalysisService.analyze env req acct usr = .ok (a, evts) ∧
      a.dataSourcesUsed = ["openai_llm"] := by
  have hpay : llmPayload env req acct = emptyPayload req := by
    unfold llmPayload emptyPayload
    rw [hcomp, hserp, hcrm, hweb, hkw]
  refine ⟨hpay, analysisOf env req acct out, _,
    analyze_ok env req acct usr out hllm, ?_⟩
  show (analysisOf env req acct out).dataSourcesUsed = ["openai_llm"]
  unfold analysisOf
  rw [hpay]
  rfl

/-- C4 witness: a concrete environment in which all five branches reject still
yields an analysis whose provenance list is exactly the reasoning engine. -/
theorem C4_witness :
    llmPayload envAllFail reqA "acct-1" = emptyPayload reqA ∧
    ∃ a evts, MarketAnalysisService.analyze envAllFail reqA "acct-1" "user-1"
        = .ok (a, evts) ∧ a.dataSourcesUsed = ["openai_llm"] :=
  C4_degraded_pipeline_total envAllFail reqA "acct-1" "user-1" sampleLlmOut
    rfl rfl rfl rfl rfl rfl

/-- C2 (amended): for the scenario-A request (empty target cities, the
unconfigured Keyword Planner as the only keyword source, zero competitors
found), the keyword branch yields the empty list — no interpolator is wired
into the pipeline, so no interpolated figures appear — and the result's
`dataSourcesUsed` omits the keyword-provider and competitor-provider names
while including the reasoning-engine name. -/
theorem C2_scenarioA_no_interpolator (env : AnalyzeEnv)
    (req : MarketAnalysisRequest) (acct usr : String)
    (out : LlmMarketAnalysisOutput)
    (hcities : req.targetCities = some [])
    (hkw : env.getKeywordData req.services []
      = .ok (GoogleAdsKeywordPlannerProvider.getKeywordData failingIdeas
          req.services []))
    (hcomp : env.getCompetitors req.zipCode req.radiusMiles = .ok [])
    (hllm : env.llm (llmPayload env req acct) = .ok out) :
    (llmPayload env req acct).keywords = [] ∧
    ∃ a evts, MarketAnalysisService.analyze env req acct usr = .ok (a, evts) ∧
      "google_ads_keyword_planner" ∉ a.dataSourcesUsed ∧
      "google_places" ∉ a.dataSourcesUsed ∧
      "openai_llm" ∈ a.dataSourcesUsed := by
  have hkeys : (llmPayload env req acct).keywords = [] := by
    unfold llmPayload
    rw [hcities]
    show exceptDegrade [] (env.getKeywordData req.services []) = []
    rw [hkw]
    exact planner_unconfigured_empty req.services []
  have hcs : (llmPayload env req acct).competitors = [] := by
    unfold llmPayload
    show exceptDegrade [] (env.getCompetitors req.zipCode req.radiusMiles) = []
    rw [hcomp]
    rfl
  have hds : (analysisOf env req acct out).dataSourcesUsed
      = getDataSourcesUsed (llmPayload env req acct).keywords.length
          (llmPayload env req acct).competitors.length
          (llmPayload env req acct).serpResults.length
          (llmPayload env req acct).crmData.isSome := rfl
  refine ⟨hkeys, analysisOf env req acct out, _,
    analyze_ok env req acct usr out hllm, ?_, ?_, ?_⟩
  · rw [hds, hkeys, hcs]
    simp [mem_getDataSourcesUsed]
  · rw [hds, hkeys, hcs]
    simp [mem_getDataSourcesUsed]
  · rw [hds, hkeys, hcs]
    simp [mem_getDataSourcesUsed]

/-- C2 witness: the concrete scenario-A run. -/
theorem C2_witness :
    (llmPayload envScenarioA reqA "acct-1").keywords = [] ∧
    ∃ a evts, MarketAnalysisService.analyze envScenarioA reqA "acct-1" "user-1"
        = .ok (a, evts) ∧
      "google_ads_keyword_planner" ∉ a.dataSourcesUsed ∧
      "google_places" ∉ a.dataSourcesUsed ∧
      "openai_llm" ∈ a.dataSourcesUsed :=
  C2_scenarioA_no_interpolator envScenarioA reqA "acct-1" "user-1" sampleLlmOut
    rfl rfl rfl rfl

/-- C2 counterexample to the claim as stated: with no configured keyword
source the keyword branch returns the empty list, while the Market Estimate
Interpolator at `f = 0` would produce six keyword rows for
`interior painting` — the pipeline's keyword figures do not come from the
interpolator. -/
theorem C2_cex :
    GoogleAdsKeywordPlannerProvider.getKeywordData failingIdeas
        ["interior painting"] [] = [] ∧
    (EstimateMarketDataProvider.getKeywordData ["interior painting"] [] 0).length
        = 6 :=
  ⟨rfl, rfl⟩

/-- C7: a plan-derivation or read-back call whose analysis id has no row owned
by the calling account — because the id does not exist or because the row
belongs to a different account — yields the same NotFound outcome in both
cases, and any successful call only ever returns a row owned by the caller. -/
theorem C7_cross_account_not_found (db : List AnalysisRow)
    (llm : LlmPlanInput → Except String LlmPlanOutput)
    (savePlanRes : Option String) (ledgerOk : Bool) (now : String)
    (req : PlanGenerationRequest) (acct usr : String) :
    ((∀ row ∈ db, row.id = req.analysisId → row.accountId ≠ acct) →
      PlanGenerationService.generatePlan db llm savePlanRes ledgerOk now req
          acct usr
        = .error ("Market analysis not found: " ++ req.analysisId) ∧
      getStoredAnalysis db req.analysisId acct = .error 404) ∧
    (∀ plan evts,
      PlanGenerationService.generatePlan db llm savePlanRes ledgerOk now req
          acct usr = .ok (plan, evts) →
      ∃ row ∈ db, row.id = req.analysisId ∧ row.accountId = acct) ∧
    (∀ i ma, getStoredAnalysis db req.analysisId acct = .ok (i, ma) →
      ∃ row ∈ db, row.id = req.analysisId ∧ row.accountId = acct ∧
        ma = row.resultData) := by
  have hlook : ∀ row : AnalysisRow,
      lookupAnalysis db req.analysisId acct = some row →
      row ∈ db ∧ row.id = req.analysisId ∧ row.accountId = acct := by
    intro row h
    unfold lookupAnalysis at h
    have hmem := List.mem_of_find?_eq_some h
    have hp := List.find?_some h
    simp only [Bool.and_eq_true, beq_iff_eq] at hp
    exact ⟨hmem, hp.1, hp.2⟩
  refine ⟨?_, ?_, ?_⟩
  · intro h
    have hnone : lookupAnalysis db req.analysisId acct = none := by
      unfold lookupAnalysis
      rw [List.find?_eq_none]
      intro r hr
      simp only [Bool.and_eq_true, beq_iff_eq, not_and]
      exact fun h1 h2 => h r hr h1 h2
    constructor
    · unfold PlanGenerationService.generatePlan
      rw [hnone]
    · unfold getStoredAnalysis
      rw [hnone]
  · intro plan evts hok
    unfold PlanGenerationService.generatePlan at hok
    cases hfind : lookupAnalysis db req.analysisId acct with
    | none =>
      rw [hfind] at hok
      simp at hok
    | some row =>
      obtain ⟨hmem, h1, h2⟩ := hlook row hfind
      exact ⟨row, hmem, h1, h2⟩
  · intro i ma hok
    unfold getStoredAnalysis at hok
    cases hfind : lookupAnalysis db req.analysisId acct with
    | none =>
      rw [hfind] at hok
      simp at hok
    | some row =>
      rw [hfind] at hok
      obtain ⟨hmem, h1, h2⟩ := hlook row hfind
      simp only [Except.ok.injEq, Prod.mk.injEq] at hok
      exact ⟨row, hmem, h1, h2, hok.2.symm⟩

/-- C7 witness: the stored analysis `an-1` belongs to `acct-1`; a caller from
`acct-2` gets the same NotFound error and 404 as for a nonexistent id. -/
theorem C7_witness :
    PlanGenerationService.generatePlan dbA planLlmA (some "pl-1") true "t"
        planReqA "acct-2" "user-2"
      = .error ("Market analysis not found: " ++ planReqA.analysisId) ∧
    getStoredAnalysis dbA planReqA.analysisId "acct-2" = .error 404 :=
  (C7_cross_account_not_found dbA planLlmA (some "pl-1") true "t" planReqA
    "acct-2" "user-2").1 (by decide)

/-- C1 (amended): `generatePlan` copies each campaign's
`estimatedCostPerClick` verbatim from the reasoning-engine output without
checking it against the stored analysis, so the CPC-equality contract holds
exactly when the engine's own output already satisfies it. -/
theorem C1_plan_cpc_pass_through (db : List AnalysisRow)
    (llm : LlmPlanInput → Except String LlmPlanOutput)
    (savePlanRes : Option String) (ledgerOk : Bool) (now : String)
    (req : PlanGenerationRequest) (acct usr : String)
    (out : LlmPlanOutput) (row : AnalysisRow)
    (hrow : lookupAnalysis db req.analysisId acct = some row)
    (hllm : llm (planLlmInput row req) = .ok out) :
    ∃ plan evts,
      PlanGenerationService.generatePlan db llm savePlanRes ledgerOk now req
          acct usr = .ok (plan, evts) ∧
      plan.campaigns.map (fun c => (c.service, c.estimatedCostPerClick))
        = out.campaigns.map (fun c => (c.service, c.estimatedCostPerClick)) ∧
      ((∀ c ∈ out.campaigns, ∀ opp ∈ row.resultData.serviceOpportunities,
          opp.service = c.service → c.estimatedCostPerClick = opp.avgCpc) →
        ∀ c ∈ plan.campaigns, ∀ opp ∈ row.resultData.serviceOpportunities,
          opp.service = c.service → c.estimatedCostPerClick = opp.avgCpc) := by
  refine ⟨planOf req out savePlanRes now, _,
    generatePlan_ok db llm savePlanRes ledgerOk now req acct usr row out
      hrow hllm, ?_, ?_⟩
  · show (out.campaigns.map campaignOf).map
        (fun c => (c.service, c.estimatedCostPerClick)) = _
    rw [List.map_map]
    rfl
  · intro hinv c hc opp hopp hsvc
    have hc' : c ∈ out.campaigns.map campaignOf := hc
    obtain ⟨c0, hc0, rfl⟩ := List.mem_map.1 hc'
    exact hinv c0 hc0 opp hopp hsvc

/-- C1 witness: with a reasoning-engine output quoting CPC `5`, the plan's
campaign CPCs are exactly the engine's (here violating the stored `avgCpc`). -/
theorem C1_witness :
    ∃ plan evts,
      PlanGenerationService.generatePlan dbA planLlmA (some "pl-1") true "t"
          planReqA "acct-1" "user-1" = .ok (plan, evts) ∧
      plan.campaigns.map (fun c => (c.service, c.estimatedCostPerClick))
        = planOutA.campaigns.map (fun c => (c.service, c.estimatedCostPerClick)) ∧
      ((∀ c ∈ planOutA.campaigns, ∀ opp ∈ rowA.resultData.serviceOpportunities,
          opp.service = c.service → c.estimatedCostPerClick = opp.avgCpc) →
        ∀ c ∈ plan.campaigns, ∀ opp ∈ rowA.resultData.serviceOpportunities,
          opp.service = c.service → c.estimatedCostPerClick = opp.avgCpc) :=
  C1_plan_cpc_pass_through dbA planLlmA (some "pl-1") true "t" planReqA
    "acct-1" "user-1" planOutA rowA rfl rfl

/-- C1 counterexample to the claim as stated: the produced plan's campaign for
`interior painting` carries `estimatedCostPerClick = 5` while the source
analysis's opportunity for the same service records `avgCpc = 10`. -/
theorem C1_cex :
    (PlanGenerationService.generatePlan dbA planLlmA (some "pl-1") true "t"
        planReqA "acct-1" "user-1").map
        (fun p => p.1.campaigns.map (fun c => (c.service, c.estimatedCostPerClick)))
      = .ok [("interior painting", 5)] ∧
    storedAnalysisA.serviceOpportunities.map (fun o => (o.service, o.avgCpc))
      = [("interior painting", 10)] ∧
    (5 : ℚ) ≠ 10 :=
  ⟨rfl, rfl, by norm_num⟩

/-- C6 (amended): the synthesis adapter fails on a missing or empty response
and surfaces parse failures, but performs no structural validation: any
parseable JSON value is returned as-is. -/
theorem C6_no_shape_validation (parse : String → Except String Json)
    (c : String) (j : Json) (hc : c ≠ "") (hp : parse c = .ok j) :
    synthesizeMarketAnalysis none parse = .error "LLM returned empty response" ∧
    synthesizeMarketAnalysis (some "") parse
      = .error "LLM returned empty response" ∧
    synthesizeMarketAnalysis (some c) parse = .ok j := by
  refine ⟨rfl, rfl, ?_⟩
  unfold synthesizeMarketAnalysis
  dsimp only
  rw [if_neg hc, hp]

/-- C6 witness: concrete empty/parseable responses. -/
theorem C6_witness :
    synthesizeMarketAnalysis none (fun _ => .ok Json.null)
      = .error "LLM returned empty response" ∧
    synthesizeMarketAnalysis (some "") (fun _ => .ok Json.null)
      = .error "LLM returned empty response" ∧
    synthesizeMarketAnalysis (some "x") (fun _ => .ok Json.null)
      = .ok Json.null :=
  C6_no_shape_validation (fun _ => .ok Json.null) "x" Json.null (by decide) rfl

/-- C6 counterexample to the claim as stated: the reasoning engine replying
with the JSON text of an empty object (which `JSON.parse` maps to the empty
object value) is returned as a success by the adapter, although the empty
object fails the §3 `MarketAnalysisResult` shape — a value failing shape
validation is returned. -/
theorem C6_cex :
    synthesizeMarketAnalysis (some "\x7b\x7d") (fun _ => .ok (Json.obj []))
      = .ok (Json.obj []) ∧
    specMarketAnalysisShape (Json.obj []) = false :=
  ⟨rfl, rfl⟩

/-- A city-qualified entry of a known-service keyword group carries the
volume fraction `0.20 + factor * 0.15` and the `1.15×` CPC uplift. -/
theorem known_city_entry {service keyword : String} {comp : Competition}
    {baseVolume : ℤ} {baseCpc : ℚ} {cities : List String} {factor : ℚ}
    {kd : KeywordData} {city : String}
    (h : kd ∈ knownEntriesForKeyword service keyword comp baseVolume baseCpc
      cities factor)
    (hcity : kd.city = some city) :
    kd.service = service ∧ kd.keyword = keyword ++ " " ++ city ∧
    kd.monthlySearches = jsRound ((baseVolume : ℚ) * (1/5 + factor * (3/20))) ∧
    kd.avgCpc = roundCents (baseCpc * (23/20)) := by
  unfold knownEntriesForKeyword at h
  rcases List.mem_cons.1 h with h | h
  · rw [h] at hcity
    simp at hcity
  · obtain ⟨c0, _, rfl⟩ := List.mem_map.1 h
    have hc : c0 = city := by simpa using hcity
    subst hc
    exact ⟨rfl, rfl, rfl, rfl⟩

/-- A city-qualified entry of a generic keyword group carries the fixed
volume fraction `0.25` and the `1.15×` CPC uplift. -/
theorem generic_city_entry {service keyword : String}
    {baseVolume : ℤ} {baseCpc : ℚ} {cities : List String}
    {kd : KeywordData} {city : String}
    (h : kd ∈ genericEntriesForKeyword service keyword baseVolume baseCpc cities)
    (hcity : kd.city = some city) :
    kd.service = service ∧ kd.keyword = keyword ++ " " ++ city ∧
    kd.monthlySearches = jsRound ((baseVolume : ℚ) * (1/4)) ∧
    kd.avgCpc = roundCents (baseCpc * (23/20)) := by
  unfold genericEntriesForKeyword at h
  rcases List.mem_cons.1 h with h | h
  · rw [h] at hcity
    simp at hcity
  · obtain ⟨c0, _, rfl⟩ := List.mem_map.1 h
    have hc : c0 = city := by simpa using hcity
    subst hc
    exact ⟨rfl, rfl, rfl, rfl⟩

/-- C9 (amended): for every service (known-template or generic), every city,
and every market factor `f ∈ [0, 1]`, each city-qualified keyword produced by
the estimate provider has monthly volume equal to the half-up integer rounding
of `frac · baseVolume` for a fraction `frac ∈ [0.20, 0.35]` of its base
keyword's volume (so the realized integer volume may fall up to half a search
outside the band), and its CPC is exactly `1.15×` the base keyword's CPC
rounded to cents. -/
theorem C9_city_variants (services cities : List String) (f : ℚ)
    (hf0 : 0 ≤ f) (hf1 : f ≤ 1) (kd : KeywordData)
    (hkd : kd ∈ EstimateMarketDataProvider.getKeywordData services cities f)
    (city : String) (hcity : kd.city = some city) :
    cityVariantConsistent
      (EstimateMarketDataProvider.getKeywordData services cities f) kd city := by
  have hfrac1 : (1 : ℚ)/5 ≤ 1/5 + f * (3/20) := by nlinarith
  have hfrac2 : (1 : ℚ)/5 + f * (3/20) ≤ 7/20 := by nlinarith
  unfold EstimateMarketDataProvider.getKeywordData at hkd ⊢
  obtain ⟨service, hs, hmem⟩ := List.mem_flatMap.1 hkd
  unfold serviceEntries at hmem
  cases hfind : findServiceEstimates (jsToLower service) with
  | some est =>
    rw [hfind] at hmem
    obtain ⟨keyword, hk, hink⟩ := List.mem_flatMap.1 hmem
    obtain ⟨hserv, hkw, hms, hcpc⟩ := known_city_entry hink hcity
    refine ⟨⟨keyword, jsRound (interpolate est.volumeRange f),
      interpolate est.cpcRange f, est.competition, service, none⟩, ?_,
      1/5 + f * (3/20), rfl, hserv.symm, hkw, hfrac1, hfrac2, hms, hcpc⟩
    refine List.mem_flatMap.2 ⟨service, hs, ?_⟩
    unfold serviceEntries
    rw [hfind]
    exact List.mem_flatMap.2 ⟨keyword, hk, List.mem_cons_self _ _⟩
  | none =>
    rw [hfind] at hmem
    have hmem' : kd ∈
        [jsToLower service, jsToLower service ++ " near me",
         jsToLower service ++ " contractor",
         jsToLower service ++ " services"].flatMap (fun keyword =>
          genericEntriesForKeyword service keyword
            (jsRound (interpolate (80, 400) f)) (interpolate (8, 20) f)
            cities) := hmem
    obtain ⟨keyword, hk, hink⟩ := List.mem_flatMap.1 hmem'
    obtain ⟨hserv, hkw, hms, hcpc⟩ := generic_city_entry hink hcity
    refine ⟨⟨keyword, jsRound (interpolate (80, 400) f),
      interpolate (8, 20) f, .medium, service, none⟩, ?_,
      1/4, rfl, hserv.symm, hkw, by norm_num, by norm_num, hms, hcpc⟩
    refine List.mem_flatMap.2 ⟨service, hs, ?_⟩
    unfold serviceEntries
    rw [hfind]
    exact List.mem_flatMap.2 ⟨keyword, hk, List.mem_cons_self _ _⟩

/-- C9 witness: the `cabinet painting` city variant for city `x` at factor
`0` is consistent with its base entry. -/
theorem C9_witness :
    cityVariantConsistent
      (EstimateMarketDataProvider.getKeywordData ["cabinet painting"] ["x"] 0)
      c9CityKeyword "x" := by
  have hfind : findServiceEstimates (jsToLower "cabinet painting")
      = some cabinetEst := by decide
  have hmem : c9CityKeyword ∈
      EstimateMarketDataProvider.getKeywordData ["cabinet painting"] ["x"] 0 := by
    unfold EstimateMarketDataProvider.getKeywordData
    refine List.mem_flatMap.2 ⟨"cabinet painting", by simp, ?_⟩
    unfold serviceEntries
    rw [hfind]
    refine List.mem_flatMap.2 ⟨"cabinet painting", by simp [cabinetEst], ?_⟩
    unfold knownEntriesForKeyword
    refine List.mem_cons.2 (Or.inr ?_)
    simp only [List.map_cons, List.map_nil, List.mem_singleton, c9CityKeyword,
      KeywordData.mk.injEq]
    norm_num [cabinetEst, jsRound, roundCents, interpolate]
    decide
  exact C9_city_variants ["cabinet painting"] ["x"] 0 (by norm_num) (by norm_num)
    c9CityKeyword hmem "x" rfl

/-- C9 counterexample to the claim as stated: at market factor `0.01` the
`cabinet painting` base volume is `126`, but its city variant's volume is
`25 = round(126 · 0.2015)`, and `25` is strictly below `0.20 · 126 = 25.2` —
the realized volume ratio falls outside `[0.20, 0.35]` after rounding. -/
theorem C9_cex :
    ((EstimateMarketDataProvider.getKeywordData ["cabinet painting"]
        ["Springfield"] (1/100))[0]?).map
        (fun k => (k.keyword, k.city, k.monthlySearches))
      = some ("cabinet painting", none, 126) ∧
    ((EstimateMarketDataProvider.getKeywordData ["cabinet painting"]
        ["Springfield"] (1/100))[1]?).map
        (fun k => (k.keyword, k.city, k.monthlySearches))
      = some ("cabinet painting Springfield", some "Springfield", 25) ∧
    (25 : ℚ) < 1/5 * 126 := by
  have hfind : findServiceEstimates (jsToLower "cabinet painting")
      = some cabinetEst := by decide
  unfold EstimateMarketDataProvider.getKeywordData serviceEntries
  simp only [List.flatMap_cons, List.flatMap_nil, List.append_nil]
  rw [hfind]
  simp only [cabinetEst, knownEntriesForKeyword, List.flatMap_cons,
    List.flatMap_nil, List.map_cons, List.map_nil, List.cons_append,
    List.nil_append, List.append_nil, List.getElem?_cons_zero,
    List.getElem?_cons_succ, Option.map_some']
  refine ⟨?_, ?_, by norm_num⟩
  · norm_num [jsRound, roundCents, interpolate]
  · norm_num [jsRound, roundCents, interpolate]
    decide

end GrowthWorker
